import Mathlib

/-!
Shallow embedding of the material view layer of the gltf repository
(src/src/material.rs), together with the external collaborators it consumes
(the document's texture collection and the generic texture reference view),
modelled from the specification where their code is not part of the sources.

Rust `f32` values are embedded as `Rat`: the layer never computes with them,
it only stores and returns them.  Rust computations that may panic
(`Option::unwrap`, `unreachable!`) are embedded in the `Panics` monad, where
`none` models a panic.
-/

/-- A Rust computation that may panic: `none` models a panic raised by
`Option::unwrap` or `unreachable!`; `some a` is normal completion with `a`. -/
abbrev Panics (α : Type) : Type := Option α

/-- Opaque extension / application-specific payload: the view layer exposes
these as-is and never interprets them, so their content is irrelevant; one
uninterpreted carrier type stands for all of them. -/
structure OpaquePayload where
  data : String
  deriving DecidableEq

namespace json

/-- json::Index — an integer index into one of the document's collections;
the Rust method `value()` is the field projection. -/
structure Index where
  value : Nat
  deriving DecidableEq

/-- json::texture::Texture — one raw entry of the document's texture
collection.  Its internal fields are not consumed by the material layer, so
it is carried opaquely. -/
structure Texture where
  source : Index
  deriving DecidableEq

/-- json::texture::Info — a generic texture reference record: texture index
plus the set index of the TEXCOORD attribute. -/
structure Info where
  index : Index
  tex_coord : Nat
  extensions : OpaquePayload
  extras : OpaquePayload
  deriving DecidableEq

namespace material

/-- json::material::AlphaCutoff — newtype over f32; the Rust projection `.0`
is the field `val`. -/
structure AlphaCutoff where
  val : Rat
  deriving DecidableEq

/-- json::material::AlphaMode — checked string newtype; `.0.as_ref()` in the
source is the field `val`. -/
structure AlphaMode where
  val : String
  deriving DecidableEq

/-- json::material::EmissiveFactor — newtype over [f32; 3]. -/
structure EmissiveFactor where
  val : Rat × Rat × Rat
  deriving DecidableEq

/-- json::material::PbrBaseColorFactor — newtype over [f32; 4]. -/
structure PbrBaseColorFactor where
  val : Rat × Rat × Rat × Rat
  deriving DecidableEq

/-- json::material::StrengthFactor — newtype over f32 used for metallic,
roughness and occlusion-strength factors. -/
structure StrengthFactor where
  val : Rat
  deriving DecidableEq

/-- json::material::NormalTexture — the raw normal-map reference record. -/
structure NormalTexture where
  index : Index
  scale : Rat
  tex_coord : Nat
  extensions : OpaquePayload
  extras : OpaquePayload
  deriving DecidableEq

/-- json::material::OcclusionTexture — the raw occlusion-map reference
record. -/
structure OcclusionTexture where
  index : Index
  strength : StrengthFactor
  tex_coord : Nat
  extensions : OpaquePayload
  extras : OpaquePayload
  deriving DecidableEq

/-- json::material::PbrMetallicRoughness — the raw nested PBR record. -/
structure PbrMetallicRoughness where
  base_color_factor : PbrBaseColorFactor
  base_color_texture : Option Info
  metallic_factor : StrengthFactor
  roughness_factor : StrengthFactor
  metallic_roughness_texture : Option Info
  extensions : OpaquePayload
  extras : OpaquePayload
  deriving DecidableEq

/-- json::material::Material — the raw material record. -/
structure Material where
  alpha_cutoff : AlphaCutoff
  alpha_mode : AlphaMode
  double_sided : Bool
  name : Option String
  pbr_metallic_roughness : Option PbrMetallicRoughness
  normal_texture : Option NormalTexture
  occlusion_texture : Option OcclusionTexture
  emissive_texture : Option Info
  emissive_factor : EmissiveFactor
  extensions : OpaquePayload
  extras : OpaquePayload
  deriving DecidableEq

end material

end json

/-- Modelled from the spec: the external Document (`Gltf`) collaborator.  It
owns "an ordered, indexable collection of TextureRecord" used by the view
layer to resolve texture indices; nothing else of it is consumed here. -/
structure Gltf where
  textures_json : List json.Texture
  deriving DecidableEq

namespace texture

/-- Modelled from the spec: texture::Texture — "a resolved, borrow-safe handle
to one entry of Document's texture collection"; it pairs the owning document
with the raw entry it denotes. -/
structure Texture where
  gltf : Gltf
  json : json.Texture
  deriving DecidableEq

/-- Constructs a texture handle over one raw collection entry. -/
def Texture.new (gltf : Gltf) (json : json.Texture) : Texture :=
  { gltf := gltf, json := json }

end texture

/-- Modelled from the spec: `document.textures()` is an ordered, indexable
collection of texture views over the raw entries; `Iterator::nth n` on it
yields the view over the entry at position `n` when `n` is in `[0, len)` and
`none` otherwise. -/
def Gltf.textures_nth (self : Gltf) (n : Nat) : Option texture.Texture :=
  (self.textures_json.get? n).map (fun j => texture.Texture.new self j)

namespace texture

/-- Modelled from the spec: texture::Info — the generic TextureReferenceView:
"wraps a resolved TextureView and exposes tex_coord() -> unsigned integer
(UV set index) plus extension/extras passthrough". -/
structure Info where
  texture : Texture
  json : json.Info
  deriving DecidableEq

/-- Constructs a generic texture reference view. -/
def Info.new (texture : Texture) (json : json.Info) : Info :=
  { texture := texture, json := json }

/-- The set index of the texture's TEXCOORD attribute. -/
def Info.tex_coord (self : Info) : Nat :=
  self.json.tex_coord

/-- Extension specific data, passed through as-is. -/
def Info.extensions (self : Info) : OpaquePayload :=
  self.json.extensions

/-- Application specific data, passed through as-is. -/
def Info.extras (self : Info) : OpaquePayload :=
  self.json.extras

end texture

/-- The alpha rendering mode of a material (material.rs, AlphaMode). -/
inductive AlphaMode where
  | Blend
  | Mask
  | Opaque
  deriving DecidableEq

/-- The material appearance of a primitive (material.rs, Material): a view
pairing the parent Gltf document with the raw material record. -/
structure Material where
  gltf : Gltf
  json : json.material.Material
  deriving DecidableEq

/-- A set of parameter values defining the metallic-roughness PBR model
(material.rs, PbrMetallicRoughness). -/
structure PbrMetallicRoughness where
  gltf : Gltf
  json : json.material.PbrMetallicRoughness
  deriving DecidableEq

/-- Defines the normal texture of a material (material.rs, NormalTexture):
the resolved parent texture handle plus the raw reference record. -/
structure NormalTexture where
  texture : texture.Texture
  json : json.material.NormalTexture
  deriving DecidableEq

/-- Defines the occlusion texture of a material (material.rs,
OcclusionTexture). -/
structure OcclusionTexture where
  texture : texture.Texture
  json : json.material.OcclusionTexture
  deriving DecidableEq

/-- Constructs a `Material` (Material::new). -/
def Material.new (gltf : Gltf) (json : json.material.Material) : Material :=
  { gltf := gltf, json := json }

/-- Returns the internal JSON item (Material::as_json). -/
def Material.as_json (self : Material) : json.material.Material :=
  self.json

/-- The alpha cutoff value of the material (Material::alpha_cutoff):
`self.json.alpha_cutoff.0`. -/
def Material.alpha_cutoff (self : Material) : Rat :=
  self.json.alpha_cutoff.val

/-- The alpha rendering mode of the material (Material::alpha_mode): decodes
the raw string; the source's wildcard arm is `unreachable!`, a panic,
embedded as `none`. -/
def Material.alpha_mode (self : Material) : Panics AlphaMode :=
  match self.json.alpha_mode.val with
  | "BLEND" => some AlphaMode.Blend
  | "MASK" => some AlphaMode.Mask
  | "OPAQUE" => some AlphaMode.Opaque
  | _ => none

/-- Specifies whether the material is double-sided (Material::double_sided). -/
def Material.double_sided (self : Material) : Bool :=
  self.json.double_sided

/-- Optional user-defined name for this object (Material::name). -/
def Material.name (self : Material) : Option String :=
  self.json.name

/-- Constructs a `PbrMetallicRoughness` (PbrMetallicRoughness::new). -/
def PbrMetallicRoughness.new (gltf : Gltf)
    (json : json.material.PbrMetallicRoughness) : PbrMetallicRoughness :=
  { gltf := gltf, json := json }

/-- The PBR parameter set (Material::pbr_metallic_roughness): maps the view
constructor over the optional nested record; absence is `none`, never a
failure. -/
def Material.pbr_metallic_roughness (self : Material) :
    Option PbrMetallicRoughness :=
  self.json.pbr_metallic_roughness.map (fun json =>
    PbrMetallicRoughness.new self.gltf json)

/-- Constructs a `NormalTexture` (NormalTexture::new). -/
def NormalTexture.new (texture : texture.Texture)
    (json : json.material.NormalTexture) : NormalTexture :=
  { texture := texture, json := json }

/-- Constructs a `OcclusionTexture` (OcclusionTexture::new). -/
def OcclusionTexture.new (texture : texture.Texture)
    (json : json.material.OcclusionTexture) : OcclusionTexture :=
  { texture := texture, json := json }

/-- The tangent-space normal map (Material::normal_texture): when the record
is present, resolves the referenced index against the document's texture
collection with `textures().nth(index).unwrap()`; `unwrap` of a missing
entry is a panic, embedded as the outer `none`. -/
def Material.normal_texture (self : Material) :
    Panics (Option NormalTexture) :=
  match self.json.normal_texture with
  | none => some none
  | some json =>
      match self.gltf.textures_nth json.index.value with
      | none => none
      | some texture => some (some (NormalTexture.new texture json))

/-- The occlusion map texture (Material::occlusion_texture): same resolution
pattern as `normal_texture`, panicking on a missing entry. -/
def Material.occlusion_texture (self : Material) :
    Panics (Option OcclusionTexture) :=
  match self.json.occlusion_texture with
  | none => some none
  | some json =>
      match self.gltf.textures_nth json.index.value with
      | none => none
      | some texture => some (some (OcclusionTexture.new texture json))

/-- The emissive map texture (Material::emissive_texture): same resolution
pattern, producing a generic texture reference view. -/
def Material.emissive_texture (self : Material) :
    Panics (Option texture.Info) :=
  match self.json.emissive_texture with
  | none => some none
  | some json =>
      match self.gltf.textures_nth json.index.value with
      | none => none
      | some tex => some (some (texture.Info.new tex json))

/-- The emissive color of the material (Material::emissive_factor). -/
def Material.emissive_factor (self : Material) : Rat × Rat × Rat :=
  self.json.emissive_factor.val

/-- Extension specific data (Material::extensions). -/
def Material.extensions (self : Material) : OpaquePayload :=
  self.json.extensions

/-- Application specific data (Material::extras). -/
def Material.extras (self : Material) : OpaquePayload :=
  self.json.extras

/-- Returns the internal JSON item (PbrMetallicRoughness::as_json). -/
def PbrMetallicRoughness.as_json (self : PbrMetallicRoughness) :
    json.material.PbrMetallicRoughness :=
  self.json

/-- The material's base color factor (PbrMetallicRoughness::base_color_factor). -/
def PbrMetallicRoughness.base_color_factor (self : PbrMetallicRoughness) :
    Rat × Rat × Rat × Rat :=
  self.json.base_color_factor.val

/-- The base color texture (PbrMetallicRoughness::base_color_texture): same
resolve-then-unwrap pattern as the material's texture accessors. -/
def PbrMetallicRoughness.base_color_texture (self : PbrMetallicRoughness) :
    Panics (Option texture.Info) :=
  match self.json.base_color_texture with
  | none => some none
  | some json =>
      match self.gltf.textures_nth json.index.value with
      | none => none
      | some tex => some (some (texture.Info.new tex json))

/-- The metalness of the material (PbrMetallicRoughness::metallic_factor). -/
def PbrMetallicRoughness.metallic_factor (self : PbrMetallicRoughness) : Rat :=
  self.json.metallic_factor.val

/-- The roughness of the material (PbrMetallicRoughness::roughness_factor). -/
def PbrMetallicRoughness.roughness_factor (self : PbrMetallicRoughness) : Rat :=
  self.json.roughness_factor.val

/-- The metallic-roughness texture
(PbrMetallicRoughness::metallic_roughness_texture). -/
def PbrMetallicRoughness.metallic_roughness_texture
    (self : PbrMetallicRoughness) : Panics (Option texture.Info) :=
  match self.json.metallic_roughness_texture with
  | none => some none
  | some json =>
      match self.gltf.textures_nth json.index.value with
      | none => none
      | some tex => some (some (texture.Info.new tex json))

/-- Extension specific data (PbrMetallicRoughness::extensions). -/
def PbrMetallicRoughness.extensions (self : PbrMetallicRoughness) :
    OpaquePayload :=
  self.json.extensions

/-- Application specific data (PbrMetallicRoughness::extras). -/
def PbrMetallicRoughness.extras (self : PbrMetallicRoughness) : OpaquePayload :=
  self.json.extras

/-- Returns the internal JSON item (NormalTexture::as_json). -/
def NormalTexture.as_json (self : NormalTexture) :
    json.material.NormalTexture :=
  self.json

/-- The scalar multiplier applied to each normal vector
(NormalTexture::scale). -/
def NormalTexture.scale (self : NormalTexture) : Rat :=
  self.json.scale

/-- The set index of the texture's TEXCOORD attribute
(NormalTexture::tex_coord). -/
def NormalTexture.tex_coord (self : NormalTexture) : Nat :=
  self.json.tex_coord

/-- Extension specific data (NormalTexture::extensions). -/
def NormalTexture.extensions (self : NormalTexture) : OpaquePayload :=
  self.json.extensions

/-- Application specific data (NormalTexture::extras). -/
def NormalTexture.extras (self : NormalTexture) : OpaquePayload :=
  self.json.extras

/-- Returns the internal JSON item (OcclusionTexture::as_json). -/
def OcclusionTexture.as_json (self : OcclusionTexture) :
    json.material.OcclusionTexture :=
  self.json

/-- The scalar multiplier controlling the amount of occlusion applied
(OcclusionTexture::strength): `self.json.strength.0`. -/
def OcclusionTexture.strength (self : OcclusionTexture) : Rat :=
  self.json.strength.val

/-- The set index of the texture's TEXCOORD attribute
(OcclusionTexture::tex_coord). -/
def OcclusionTexture.tex_coord (self : OcclusionTexture) : Nat :=
  self.json.tex_coord

/-- Extension specific data (OcclusionTexture::extensions). -/
def OcclusionTexture.extensions (self : OcclusionTexture) : OpaquePayload :=
  self.json.extensions

/-- Application specific data (OcclusionTexture::extras). -/
def OcclusionTexture.extras (self : OcclusionTexture) : OpaquePayload :=
  self.json.extras

/-- Deref for NormalTexture (impl Deref, Target = texture::Texture): the
specialization exposes its inner resolved texture handle. -/
def NormalTexture.deref (self : NormalTexture) : texture.Texture :=
  self.texture

/-- Deref for OcclusionTexture (impl Deref, Target = texture::Texture). -/
def OcclusionTexture.deref (self : OcclusionTexture) : texture.Texture :=
  self.texture

/-!
Raw-record layer.  The deserializer that parses the document and applies the
documented defaults is not part of the sources (it lives in the json crate),
so it is modelled from the spec: "Default values (alpha-cutoff 0.5,
metallic/roughness-factor 1.0, texture-set index 0) apply exactly when the
corresponding field is absent from the record", occlusion strength defaults
to 1.0, and the alpha mode defaults to Opaque.
-/

/-- Modelled from the spec: a raw generic texture reference before
defaulting; the texture-set index may be absent. -/
structure RawInfo where
  index : json.Index
  tex_coord : Option Nat
  extensions : OpaquePayload
  extras : OpaquePayload
  deriving DecidableEq

/-- Modelled from the spec: deserializing a generic texture reference applies
the texture-set-index default 0 when the field is absent. -/
def RawInfo.deserialize (r : RawInfo) : json.Info :=
  { index := r.index
  , tex_coord := r.tex_coord.getD 0
  , extensions := r.extensions
  , extras := r.extras }

/-- Modelled from the spec: a raw normal-map reference before defaulting. -/
structure RawNormalTexture where
  index : json.Index
  scale : Rat
  tex_coord : Option Nat
  extensions : OpaquePayload
  extras : OpaquePayload
  deriving DecidableEq

/-- Modelled from the spec: deserializing a normal-map reference applies the
texture-set-index default 0 when the field is absent. -/
def RawNormalTexture.deserialize (r : RawNormalTexture) :
    json.material.NormalTexture :=
  { index := r.index
  , scale := r.scale
  , tex_coord := r.tex_coord.getD 0
  , extensions := r.extensions
  , extras := r.extras }

/-- Modelled from the spec: a raw occlusion-map reference before
defaulting; strength and the texture-set index may be absent. -/
structure RawOcclusionTexture where
  index : json.Index
  strength : Option Rat
  tex_coord : Option Nat
  extensions : OpaquePayload
  extras : OpaquePayload
  deriving DecidableEq

/-- Modelled from the spec: deserializing an occlusion-map reference applies
the strength default 1.0 and the texture-set-index default 0. -/
def RawOcclusionTexture.deserialize (r : RawOcclusionTexture) :
    json.material.OcclusionTexture :=
  { index := r.index
  , strength := { val := r.strength.getD 1 }
  , tex_coord := r.tex_coord.getD 0
  , extensions := r.extensions
  , extras := r.extras }

/-- Modelled from the spec: a raw PBR metallic-roughness record before
defaulting; the metallic and roughness factors may be absent. -/
structure RawPbrMetallicRoughness where
  base_color_factor : Rat × Rat × Rat × Rat
  base_color_texture : Option RawInfo
  metallic_factor : Option Rat
  roughness_factor : Option Rat
  metallic_roughness_texture : Option RawInfo
  extensions : OpaquePayload
  extras : OpaquePayload
  deriving DecidableEq

/-- Modelled from the spec: deserializing the PBR record applies the default
1.0 to an absent metallic or roughness factor. -/
def RawPbrMetallicRoughness.deserialize (r : RawPbrMetallicRoughness) :
    json.material.PbrMetallicRoughness :=
  { base_color_factor := { val := r.base_color_factor }
  , base_color_texture := r.base_color_texture.map RawInfo.deserialize
  , metallic_factor := { val := r.metallic_factor.getD 1 }
  , roughness_factor := { val := r.roughness_factor.getD 1 }
  , metallic_roughness_texture :=
      r.metallic_roughness_texture.map RawInfo.deserialize
  , extensions := r.extensions
  , extras := r.extras }

/-- Modelled from the spec: a raw material record before defaulting; the
alpha cutoff and alpha mode may be absent. -/
structure RawMaterial where
  alpha_cutoff : Option Rat
  alpha_mode : Option String
  double_sided : Bool
  name : Option String
  pbr_metallic_roughness : Option RawPbrMetallicRoughness
  normal_texture : Option RawNormalTexture
  occlusion_texture : Option RawOcclusionTexture
  emissive_texture : Option RawInfo
  emissive_factor : Rat × Rat × Rat
  extensions : OpaquePayload
  extras : OpaquePayload
  deriving DecidableEq

/-- Modelled from the spec: deserializing a material record applies the
alpha-cutoff default 0.5 and the alpha-mode default "OPAQUE" when those
fields are absent, and deserializes the nested records. -/
def RawMaterial.deserialize (r : RawMaterial) : json.material.Material :=
  { alpha_cutoff := { val := r.alpha_cutoff.getD (1/2) }
  , alpha_mode := { val := r.alpha_mode.getD "OPAQUE" }
  , double_sided := r.double_sided
  , name := r.name
  , pbr_metallic_roughness :=
      r.pbr_metallic_roughness.map RawPbrMetallicRoughness.deserialize
  , normal_texture := r.normal_texture.map RawNormalTexture.deserialize
  , occlusion_texture := r.occlusion_texture.map RawOcclusionTexture.deserialize
  , emissive_texture := r.emissive_texture.map RawInfo.deserialize
  , emissive_factor := { val := r.emissive_factor }
  , extensions := r.extensions
  , extras := r.extras }

/-- Embedding of a Rust method call through a shared reference (&self): the
source types contain no interior mutability, so the receiver that stands
after the call is the receiver itself; a call yields the result paired with
the receiver as it is left by the call. -/
def callOn {σ α : Type} (self : σ) (f : σ → α) : α × σ :=
  (f self, self)

/-!
Concrete fixtures used by counterexamples and witnesses.
-/

/-- A fixture payload for concrete test documents. -/
def emptyPayload : OpaquePayload := { data := "" }

/-- A fixture document with exactly three textures. -/
def gltf3 : Gltf :=
  { textures_json :=
      [ { source := { value := 10 } }
      , { source := { value := 11 } }
      , { source := { value := 12 } } ] }

/-- A fixture material record with no nested records and valid fields. -/
def plainMaterialJson : json.material.Material :=
  { alpha_cutoff := { val := 1/2 }
  , alpha_mode := { val := "OPAQUE" }
  , double_sided := false
  , name := none
  , pbr_metallic_roughness := none
  , normal_texture := none
  , occlusion_texture := none
  , emissive_texture := none
  , emissive_factor := { val := (0, 0, 0) }
  , extensions := emptyPayload
  , extras := emptyPayload }

/-- A fixture normal-map reference with out-of-range index 7. -/
def normalRef7 : json.material.NormalTexture :=
  { index := { value := 7 }
  , scale := 2
  , tex_coord := 1
  , extensions := emptyPayload
  , extras := emptyPayload }

/-- A fixture normal-map reference with out-of-range index 3. -/
def normalRef3 : json.material.NormalTexture :=
  { index := { value := 3 }
  , scale := 1
  , tex_coord := 0
  , extensions := emptyPayload
  , extras := emptyPayload }

/-- A fixture occlusion-map reference with out-of-range index 4. -/
def occlusionRef4 : json.material.OcclusionTexture :=
  { index := { value := 4 }
  , strength := { val := 1 }
  , tex_coord := 0
  , extensions := emptyPayload
  , extras := emptyPayload }

/-- A fixture emissive reference with out-of-range index 5. -/
def emissiveRef5 : json.Info :=
  { index := { value := 5 }
  , tex_coord := 0
  , extensions := emptyPayload
  , extras := emptyPayload }

/-- A fixture normal-map reference with in-range index 1. -/
def normalRef1 : json.material.NormalTexture :=
  { index := { value := 1 }
  , scale := 2
  , tex_coord := 1
  , extensions := emptyPayload
  , extras := emptyPayload }

/-- A fixture occlusion-map reference with in-range index 2. -/
def occlusionRef2 : json.material.OcclusionTexture :=
  { index := { value := 2 }
  , strength := { val := 1/2 }
  , tex_coord := 0
  , extensions := emptyPayload
  , extras := emptyPayload }

/-- A fixture emissive reference with in-range index 0. -/
def emissiveRef0 : json.Info :=
  { index := { value := 0 }
  , tex_coord := 3
  , extensions := emptyPayload
  , extras := emptyPayload }

/-- A fixture PBR record. -/
def pbrJson1 : json.material.PbrMetallicRoughness :=
  { base_color_factor := { val := (1, 1/2, 1/4, 1) }
  , base_color_texture := none
  , metallic_factor := { val := 1/4 }
  , roughness_factor := { val := 3/4 }
  , metallic_roughness_texture := none
  , extensions := emptyPayload
  , extras := emptyPayload }

/-!
Claims.
-/

/-- C1 (counterexample): over a document with three textures, a material
whose normal-texture record carries index 7 makes normal_texture() hit
`Option::unwrap` on a missing collection entry — a panic, embedded as
`none` — rather than returning any failure value identifying the field. -/
theorem C1_normal_texture_out_of_range_panics_cex :
    (Material.new gltf3
        { plainMaterialJson with normal_texture := some normalRef7 }
      ).normal_texture = none := by
  decide

/-- C1 (amended): for every material whose normal-, occlusion- or
emissive-texture record is present with a texture index outside
[0, len) of the document's texture collection, the resolving accessor
panics (unwrap of a missing entry, embedded as `none`); it does not return
a failure value. -/
theorem C1_texture_index_out_of_range_panics (g : Gltf)
    (mj : json.material.Material) :
    (∀ nj, mj.normal_texture = some nj →
      g.textures_json.length ≤ nj.index.value →
      (Material.new g mj).normal_texture = none) ∧
    (∀ oj, mj.occlusion_texture = some oj →
      g.textures_json.length ≤ oj.index.value →
      (Material.new g mj).occlusion_texture = none) ∧
    (∀ ej, mj.emissive_texture = some ej →
      g.textures_json.length ≤ ej.index.value →
      (Material.new g mj).emissive_texture = none) := by
  refine ⟨fun nj hnj hlen => ?_, fun oj hoj hlen => ?_, fun ej hej hlen => ?_⟩
  · simp [Material.normal_texture, Material.new, Gltf.textures_nth, hnj,
      List.get?_eq_none.mpr hlen, List.getElem?_eq_none hlen]
  · simp [Material.occlusion_texture, Material.new, Gltf.textures_nth, hoj,
      List.get?_eq_none.mpr hlen, List.getElem?_eq_none hlen]
  · simp [Material.emissive_texture, Material.new, Gltf.textures_nth, hej,
      List.get?_eq_none.mpr hlen, List.getElem?_eq_none hlen]

/-- C1 (witness): the amended claim at a concrete input — a document with
three textures and a material whose three texture references carry the
out-of-range indices 3, 4 and 5. -/
theorem C1_texture_index_out_of_range_panics_witness :
    (Material.new gltf3
        { plainMaterialJson with
            normal_texture := some normalRef3
          , occlusion_texture := some occlusionRef4
          , emissive_texture := some emissiveRef5 }).normal_texture = none ∧
    (Material.new gltf3
        { plainMaterialJson with
            normal_texture := some normalRef3
          , occlusion_texture := some occlusionRef4
          , emissive_texture := some emissiveRef5 }).occlusion_texture = none ∧
    (Material.new gltf3
        { plainMaterialJson with
            normal_texture := some normalRef3
          , occlusion_texture := some occlusionRef4
          , emissive_texture := some emissiveRef5 }).emissive_texture = none :=
  ⟨(C1_texture_index_out_of_range_panics gltf3 _).1 normalRef3 rfl (by decide)
  , (C1_texture_index_out_of_range_panics gltf3 _).2.1 occlusionRef4 rfl
      (by decide)
  , (C1_texture_index_out_of_range_panics gltf3 _).2.2 emissiveRef5 rfl
      (by decide)⟩

/-- C2 (counterexample): a material whose alpha-mode string is "WIBBLE"
makes alpha_mode() hit the source's `unreachable!` arm — a panic, embedded
as `none` — rather than returning a failure value. -/
theorem C2_alpha_mode_invalid_string_panics_cex :
    (Material.new gltf3
        { plainMaterialJson with alpha_mode := { val := "WIBBLE" } }
      ).alpha_mode = none := by
  decide

/-- C2 (amended): for every material whose alpha-mode string is outside the
fixed enumeration OPAQUE, MASK, BLEND, alpha_mode() panics (the wildcard
`unreachable!` arm, embedded as `none`); it does not return a failure
value. -/
theorem C2_alpha_mode_invalid_string_panics (self : Material)
    (hb : self.json.alpha_mode.val ≠ "BLEND")
    (hm : self.json.alpha_mode.val ≠ "MASK")
    (ho : self.json.alpha_mode.val ≠ "OPAQUE") :
    self.alpha_mode = none := by
  unfold Material.alpha_mode
  split
  · exact absurd (by assumption) hb
  · exact absurd (by assumption) hm
  · exact absurd (by assumption) ho
  · rfl

/-- C2 (witness): the amended claim at a concrete material whose alpha-mode
string is "GLASS". -/
theorem C2_alpha_mode_invalid_string_panics_witness :
    (Material.new gltf3
        { plainMaterialJson with alpha_mode := { val := "GLASS" } }
      ).alpha_mode = none :=
  C2_alpha_mode_invalid_string_panics
    (Material.new gltf3
      { plainMaterialJson with alpha_mode := { val := "GLASS" } })
    (by decide) (by decide) (by decide)

/-- C3: for every material whose alpha-mode string is one of the three valid
strings, alpha_mode() decodes it: "BLEND" yields Blend, "MASK" yields Mask,
"OPAQUE" yields Opaque (each wrapped in `some`, normal completion). -/
theorem C3_alpha_mode_decodes_valid_strings (self : Material) :
    (self.json.alpha_mode.val = "BLEND" →
      self.alpha_mode = some AlphaMode.Blend) ∧
    (self.json.alpha_mode.val = "MASK" →
      self.alpha_mode = some AlphaMode.Mask) ∧
    (self.json.alpha_mode.val = "OPAQUE" →
      self.alpha_mode = some AlphaMode.Opaque) := by
  refine ⟨fun h => ?_, fun h => ?_, fun h => ?_⟩ <;>
    (unfold Material.alpha_mode; rw [h]; rfl)

/-- C3 (witness): the decoding at three concrete materials, one per valid
string. -/
theorem C3_alpha_mode_decodes_valid_strings_witness :
    (Material.new gltf3
        { plainMaterialJson with alpha_mode := { val := "BLEND" } }
      ).alpha_mode = some AlphaMode.Blend ∧
    (Material.new gltf3
        { plainMaterialJson with alpha_mode := { val := "MASK" } }
      ).alpha_mode = some AlphaMode.Mask ∧
    (Material.new gltf3 plainMaterialJson).alpha_mode
      = some AlphaMode.Opaque :=
  ⟨(C3_alpha_mode_decodes_valid_strings _).1 rfl
  , (C3_alpha_mode_decodes_valid_strings _).2.1 rfl
  , (C3_alpha_mode_decodes_valid_strings
      (Material.new gltf3 plainMaterialJson)).2.2 rfl⟩

/-- A fixture raw material record with every defaultable field absent. -/
def rawMaterialUnset : RawMaterial :=
  { alpha_cutoff := none
  , alpha_mode := none
  , double_sided := false
  , name := none
  , pbr_metallic_roughness := none
  , normal_texture := none
  , occlusion_texture := none
  , emissive_texture := none
  , emissive_factor := (0, 0, 0)
  , extensions := emptyPayload
  , extras := emptyPayload }

/-- A fixture raw PBR record with metallic and roughness factors absent. -/
def rawPbrUnset : RawPbrMetallicRoughness :=
  { base_color_factor := (1, 1, 1, 1)
  , base_color_texture := none
  , metallic_factor := none
  , roughness_factor := none
  , metallic_roughness_texture := none
  , extensions := emptyPayload
  , extras := emptyPayload }

/-- A fixture raw normal-map reference with the texture-set index absent. -/
def rawNormalUnset : RawNormalTexture :=
  { index := { value := 0 }
  , scale := 1
  , tex_coord := none
  , extensions := emptyPayload
  , extras := emptyPayload }

/-- A fixture raw occlusion-map reference with strength and texture-set
index absent. -/
def rawOcclusionUnset : RawOcclusionTexture :=
  { index := { value := 0 }
  , strength := none
  , tex_coord := none
  , extensions := emptyPayload
  , extras := emptyPayload }

/-- A fixture resolved texture handle over the first entry of gltf3. -/
def texHandle0 : texture.Texture :=
  texture.Texture.new gltf3 { source := { value := 10 } }

/-- C4: for every record with the corresponding field absent, the view over
the deserialized record reproduces the documented default: alpha_cutoff()
returns 0.5, metallic_factor() and roughness_factor() return 1.0, and
tex_coord() returns 0. -/
theorem C4_absent_fields_yield_defaults (g : Gltf) (rm : RawMaterial)
    (rp : RawPbrMetallicRoughness) (rn : RawNormalTexture)
    (ro : RawOcclusionTexture) (t : texture.Texture) :
    (rm.alpha_cutoff = none →
      (Material.new g rm.deserialize).alpha_cutoff = 1/2) ∧
    (rp.metallic_factor = none →
      (PbrMetallicRoughness.new g rp.deserialize).metallic_factor = 1) ∧
    (rp.roughness_factor = none →
      (PbrMetallicRoughness.new g rp.deserialize).roughness_factor = 1) ∧
    (rn.tex_coord = none →
      (NormalTexture.new t rn.deserialize).tex_coord = 0) ∧
    (ro.tex_coord = none →
      (OcclusionTexture.new t ro.deserialize).tex_coord = 0) := by
  refine ⟨fun h => ?_, fun h => ?_, fun h => ?_, fun h => ?_, fun h => ?_⟩ <;>
    simp [Material.alpha_cutoff, Material.new, RawMaterial.deserialize,
      PbrMetallicRoughness.metallic_factor,
      PbrMetallicRoughness.roughness_factor, PbrMetallicRoughness.new,
      RawPbrMetallicRoughness.deserialize, NormalTexture.tex_coord,
      NormalTexture.new, RawNormalTexture.deserialize,
      OcclusionTexture.tex_coord, OcclusionTexture.new,
      RawOcclusionTexture.deserialize, h]

/-- C4 (witness): the defaults at concrete raw records with the fields
absent. -/
theorem C4_absent_fields_yield_defaults_witness :
    (Material.new gltf3 rawMaterialUnset.deserialize).alpha_cutoff = 1/2 ∧
    (PbrMetallicRoughness.new gltf3 rawPbrUnset.deserialize).metallic_factor
      = 1 ∧
    (PbrMetallicRoughness.new gltf3 rawPbrUnset.deserialize).roughness_factor
      = 1 ∧
    (NormalTexture.new texHandle0 rawNormalUnset.deserialize).tex_coord = 0 ∧
    (OcclusionTexture.new texHandle0 rawOcclusionUnset.deserialize).tex_coord
      = 0 :=
  ⟨(C4_absent_fields_yield_defaults gltf3 rawMaterialUnset rawPbrUnset
      rawNormalUnset rawOcclusionUnset texHandle0).1 rfl
  , (C4_absent_fields_yield_defaults gltf3 rawMaterialUnset rawPbrUnset
      rawNormalUnset rawOcclusionUnset texHandle0).2.1 rfl
  , (C4_absent_fields_yield_defaults gltf3 rawMaterialUnset rawPbrUnset
      rawNormalUnset rawOcclusionUnset texHandle0).2.2.1 rfl
  , (C4_absent_fields_yield_defaults gltf3 rawMaterialUnset rawPbrUnset
      rawNormalUnset rawOcclusionUnset texHandle0).2.2.2.1 rfl
  , (C4_absent_fields_yield_defaults gltf3 rawMaterialUnset rawPbrUnset
      rawNormalUnset rawOcclusionUnset texHandle0).2.2.2.2 rfl⟩

/-- C5: a material without a nested PBR record yields `none` from
pbr_metallic_roughness() (absence, not a failure); a material with one
yields a view whose accessors reflect exactly the raw nested record's
field values. -/
theorem C5_pbr_block_optional_and_faithful (g : Gltf)
    (mj : json.material.Material) :
    (mj.pbr_metallic_roughness = none →
      (Material.new g mj).pbr_metallic_roughness = none) ∧
    (∀ pj, mj.pbr_metallic_roughness = some pj →
      (Material.new g mj).pbr_metallic_roughness
        = some (PbrMetallicRoughness.new g pj) ∧
      (PbrMetallicRoughness.new g pj).base_color_factor
        = pj.base_color_factor.val ∧
      (PbrMetallicRoughness.new g pj).metallic_factor
        = pj.metallic_factor.val ∧
      (PbrMetallicRoughness.new g pj).roughness_factor
        = pj.roughness_factor.val ∧
      (PbrMetallicRoughness.new g pj).as_json = pj) := by
  constructor
  · intro h
    simp [Material.pbr_metallic_roughness, Material.new, h]
  · intro pj h
    refine ⟨?_, rfl, rfl, rfl, rfl⟩
    simp [Material.pbr_metallic_roughness, Material.new,
      PbrMetallicRoughness.new, h]

/-- C5 (witness): absence and presence at concrete materials. -/
theorem C5_pbr_block_optional_and_faithful_witness :
    (Material.new gltf3 plainMaterialJson).pbr_metallic_roughness = none ∧
    ((Material.new gltf3
        { plainMaterialJson with pbr_metallic_roughness := some pbrJson1 }
      ).pbr_metallic_roughness = some (PbrMetallicRoughness.new gltf3 pbrJson1)
      ∧ (PbrMetallicRoughness.new gltf3 pbrJson1).base_color_factor
          = pbrJson1.base_color_factor.val
      ∧ (PbrMetallicRoughness.new gltf3 pbrJson1).metallic_factor
          = pbrJson1.metallic_factor.val
      ∧ (PbrMetallicRoughness.new gltf3 pbrJson1).roughness_factor
          = pbrJson1.roughness_factor.val
      ∧ (PbrMetallicRoughness.new gltf3 pbrJson1).as_json = pbrJson1) :=
  ⟨(C5_pbr_block_optional_and_faithful gltf3 plainMaterialJson).1 rfl
  , (C5_pbr_block_optional_and_faithful gltf3
      { plainMaterialJson with pbr_metallic_roughness := some pbrJson1 }).2
      pbrJson1 rfl⟩

/-- C6: for every present texture-reference record whose index is in
[0, len), the resolving accessor completes normally with a view whose
resolved texture handle is exactly the entry at position `index` of the
document's texture collection. -/
theorem C6_in_range_index_resolves_to_entry (g : Gltf)
    (mj : json.material.Material) :
    (∀ nj, mj.normal_texture = some nj →
      nj.index.value < g.textures_json.length →
      ∃ v : NormalTexture,
        (Material.new g mj).normal_texture = some (some v) ∧
        g.textures_nth nj.index.value = some v.texture ∧
        g.textures_json.get? nj.index.value = some v.texture.json ∧
        v.texture.gltf = g ∧ v.json = nj) ∧
    (∀ oj, mj.occlusion_texture = some oj →
      oj.index.value < g.textures_json.length →
      ∃ v : OcclusionTexture,
        (Material.new g mj).occlusion_texture = some (some v) ∧
        g.textures_nth oj.index.value = some v.texture ∧
        g.textures_json.get? oj.index.value = some v.texture.json ∧
        v.texture.gltf = g ∧ v.json = oj) ∧
    (∀ ej, mj.emissive_texture = some ej →
      ej.index.value < g.textures_json.length →
      ∃ v : texture.Info,
        (Material.new g mj).emissive_texture = some (some v) ∧
        g.textures_nth ej.index.value = some v.texture ∧
        g.textures_json.get? ej.index.value = some v.texture.json ∧
        v.texture.gltf = g ∧ v.json = ej) := by
  refine ⟨fun nj hnj hlt => ?_, fun oj hoj hlt => ?_, fun ej hej hlt => ?_⟩
  · cases htj : g.textures_json[nj.index.value]? with
    | none => exact absurd (List.getElem?_eq_none_iff.mp htj) (Nat.not_le.mpr hlt)
    | some tj =>
        refine ⟨NormalTexture.new (texture.Texture.new g tj) nj, ?_, ?_, ?_,
          rfl, rfl⟩
        · simp [Material.normal_texture, Material.new, Gltf.textures_nth,
            hnj, htj, texture.Texture.new, NormalTexture.new]
        · simp [Gltf.textures_nth, htj, texture.Texture.new, NormalTexture.new]
        · simp [htj, List.get?_eq_getElem?, NormalTexture.new,
            texture.Texture.new]
  · cases htj : g.textures_json[oj.index.value]? with
    | none => exact absurd (List.getElem?_eq_none_iff.mp htj) (Nat.not_le.mpr hlt)
    | some tj =>
        refine ⟨OcclusionTexture.new (texture.Texture.new g tj) oj, ?_, ?_, ?_,
          rfl, rfl⟩
        · simp [Material.occlusion_texture, Material.new, Gltf.textures_nth,
            hoj, htj, texture.Texture.new, OcclusionTexture.new]
        · simp [Gltf.textures_nth, htj, texture.Texture.new,
            OcclusionTexture.new]
        · simp [htj, List.get?_eq_getElem?, OcclusionTexture.new,
            texture.Texture.new]
  · cases htj : g.textures_json[ej.index.value]? with
    | none => exact absurd (List.getElem?_eq_none_iff.mp htj) (Nat.not_le.mpr hlt)
    | some tj =>
        refine ⟨texture.Info.new (texture.Texture.new g tj) ej, ?_, ?_, ?_,
          rfl, rfl⟩
        · simp [Material.emissive_texture, Material.new, Gltf.textures_nth,
            hej, htj, texture.Texture.new, texture.Info.new]
        · simp [Gltf.textures_nth, htj, texture.Texture.new, texture.Info.new]
        · simp [htj, List.get?_eq_getElem?, texture.Info.new,
            texture.Texture.new]

/-- C6 (witness): resolution at a concrete document with three textures and
in-range indices 1, 2 and 0. -/
theorem C6_in_range_index_resolves_to_entry_witness :
    (∃ v : NormalTexture,
      (Material.new gltf3
          { plainMaterialJson with
              normal_texture := some normalRef1
            , occlusion_texture := some occlusionRef2
            , emissive_texture := some emissiveRef0 }).normal_texture
        = some (some v) ∧
      gltf3.textures_nth normalRef1.index.value = some v.texture ∧
      gltf3.textures_json.get? normalRef1.index.value = some v.texture.json ∧
      v.texture.gltf = gltf3 ∧ v.json = normalRef1) ∧
    (∃ v : OcclusionTexture,
      (Material.new gltf3
          { plainMaterialJson with
              normal_texture := some normalRef1
            , occlusion_texture := some occlusionRef2
            , emissive_texture := some emissiveRef0 }).occlusion_texture
        = some (some v) ∧
      gltf3.textures_nth occlusionRef2.index.value = some v.texture ∧
      gltf3.textures_json.get? occlusionRef2.index.value
        = some v.texture.json ∧
      v.texture.gltf = gltf3 ∧ v.json = occlusionRef2) ∧
    (∃ v : texture.Info,
      (Material.new gltf3
          { plainMaterialJson with
              normal_texture := some normalRef1
            , occlusion_texture := some occlusionRef2
            , emissive_texture := some emissiveRef0 }).emissive_texture
        = some (some v) ∧
      gltf3.textures_nth emissiveRef0.index.value = some v.texture ∧
      gltf3.textures_json.get? emissiveRef0.index.value
        = some v.texture.json ∧
      v.texture.gltf = gltf3 ∧ v.json = emissiveRef0) :=
  ⟨(C6_in_range_index_resolves_to_entry gltf3 _).1 normalRef1 rfl (by decide)
  , (C6_in_range_index_resolves_to_entry gltf3 _).2.1 occlusionRef2 rfl
      (by decide)
  , (C6_in_range_index_resolves_to_entry gltf3 _).2.2 emissiveRef0 rfl
      (by decide)⟩

/-- The underlying generic reference data of a normal-map reference record:
the same texture index, texture-set index, extensions and extras. -/
def json.material.NormalTexture.refData (j : json.material.NormalTexture) :
    json.Info :=
  { index := j.index
  , tex_coord := j.tex_coord
  , extensions := j.extensions
  , extras := j.extras }

/-- The underlying generic reference data of an occlusion-map reference
record. -/
def json.material.OcclusionTexture.refData
    (j : json.material.OcclusionTexture) : json.Info :=
  { index := j.index
  , tex_coord := j.tex_coord
  , extensions := j.extensions
  , extras := j.extras }

/-- C7: a NormalTexture or OcclusionTexture view reports the same
tex_coord(), the same resolved texture (through its Deref to
texture::Texture), and the same extensions/extras as a generic texture
reference view (texture::Info) constructed directly from the same
underlying reference data and the same resolved texture handle. -/
theorem C7_specializations_match_generic_view (t : texture.Texture)
    (nj : json.material.NormalTexture)
    (oj : json.material.OcclusionTexture) :
    ((NormalTexture.new t nj).tex_coord
        = (texture.Info.new t nj.refData).tex_coord ∧
      (NormalTexture.new t nj).deref = (texture.Info.new t nj.refData).texture ∧
      (NormalTexture.new t nj).extensions
        = (texture.Info.new t nj.refData).extensions ∧
      (NormalTexture.new t nj).extras
        = (texture.Info.new t nj.refData).extras) ∧
    ((OcclusionTexture.new t oj).tex_coord
        = (texture.Info.new t oj.refData).tex_coord ∧
      (OcclusionTexture.new t oj).deref
        = (texture.Info.new t oj.refData).texture ∧
      (OcclusionTexture.new t oj).extensions
        = (texture.Info.new t oj.refData).extensions ∧
      (OcclusionTexture.new t oj).extras
        = (texture.Info.new t oj.refData).extras) :=
  ⟨⟨rfl, rfl, rfl, rfl⟩, ⟨rfl, rfl, rfl, rfl⟩⟩

/-- C8: every accessor is deterministic: two material views over the same
(document, record) pair agree on every accessor, and resolving the same
present, in-range texture-reference record through both views yields views
holding the same entry of the document's texture collection (referential
stability). -/
theorem C8_accessors_deterministic_and_stable (m₁ m₂ : Material)
    (hg : m₁.gltf = m₂.gltf) (hj : m₁.json = m₂.json) :
    m₁.alpha_cutoff = m₂.alpha_cutoff ∧
    m₁.alpha_mode = m₂.alpha_mode ∧
    m₁.double_sided = m₂.double_sided ∧
    m₁.name = m₂.name ∧
    m₁.pbr_metallic_roughness = m₂.pbr_metallic_roughness ∧
    m₁.normal_texture = m₂.normal_texture ∧
    m₁.occlusion_texture = m₂.occlusion_texture ∧
    m₁.emissive_texture = m₂.emissive_texture ∧
    m₁.emissive_factor = m₂.emissive_factor ∧
    (∀ nj v₁ v₂, m₁.json.normal_texture = some nj →
      m₁.normal_texture = some (some v₁) →
      m₂.normal_texture = some (some v₂) →
      v₁.texture = v₂.texture ∧
      m₁.gltf.textures_nth nj.index.value = some v₁.texture) := by
  refine ⟨by simp only [Material.alpha_cutoff, hj]
        , by simp only [Material.alpha_mode, hj]
        , by simp only [Material.double_sided, hj]
        , by simp only [Material.name, hj]
        , by simp only [Material.pbr_metallic_roughness, hj, hg]
        , by simp only [Material.normal_texture, hj, hg]
        , by simp only [Material.occlusion_texture, hj, hg]
        , by simp only [Material.emissive_texture, hj, hg]
        , by simp only [Material.emissive_factor, hj]
        , ?_⟩
  intro nj v₁ v₂ hnj h₁ h₂
  have hnjb : m₂.json.normal_texture = some nj := by rw [← hj]; exact hnj
  cases ht : m₁.gltf.textures_nth nj.index.value with
  | none =>
      simp only [Material.normal_texture, hnj, ht] at h₁
      exact Option.noConfusion h₁
  | some t =>
      have htb : m₂.gltf.textures_nth nj.index.value = some t := by
        rw [← hg]; exact ht
      simp only [Material.normal_texture, hnj, ht, Option.some.injEq] at h₁
      simp only [Material.normal_texture, hnjb, htb, Option.some.injEq] at h₂
      subst h₁
      subst h₂
      exact ⟨rfl, by simp [ht, NormalTexture.new]⟩

/-- C8 (witness): determinism and referential stability at a concrete
material view built twice from the same document and record. -/
theorem C8_accessors_deterministic_and_stable_witness :
    (Material.new gltf3
        { plainMaterialJson with normal_texture := some normalRef1 }
      ).alpha_cutoff
      = (Material.new gltf3
          { plainMaterialJson with normal_texture := some normalRef1 }
        ).alpha_cutoff ∧
    (Material.new gltf3
        { plainMaterialJson with normal_texture := some normalRef1 }
      ).alpha_mode
      = (Material.new gltf3
          { plainMaterialJson with normal_texture := some normalRef1 }
        ).alpha_mode ∧
    (Material.new gltf3
        { plainMaterialJson with normal_texture := some normalRef1 }
      ).double_sided
      = (Material.new gltf3
          { plainMaterialJson with normal_texture := some normalRef1 }
        ).double_sided ∧
    (Material.new gltf3
        { plainMaterialJson with normal_texture := some normalRef1 }
      ).name
      = (Material.new gltf3
          { plainMaterialJson with normal_texture := some normalRef1 }
        ).name ∧
    (Material.new gltf3
        { plainMaterialJson with normal_texture := some normalRef1 }
      ).pbr_metallic_roughness
      = (Material.new gltf3
          { plainMaterialJson with normal_texture := some normalRef1 }
        ).pbr_metallic_roughness ∧
    (Material.new gltf3
        { plainMaterialJson with normal_texture := some normalRef1 }
      ).normal_texture
      = (Material.new gltf3
          { plainMaterialJson with normal_texture := some normalRef1 }
        ).normal_texture ∧
    (Material.new gltf3
        { plainMaterialJson with normal_texture := some normalRef1 }
      ).occlusion_texture
      = (Material.new gltf3
          { plainMaterialJson with normal_texture := some normalRef1 }
        ).occlusion_texture ∧
    (Material.new gltf3
        { plainMaterialJson with normal_texture := some normalRef1 }
      ).emissive_texture
      = (Material.new gltf3
          { plainMaterialJson with normal_texture := some normalRef1 }
        ).emissive_texture ∧
    (Material.new gltf3
        { plainMaterialJson with normal_texture := some normalRef1 }
      ).emissive_factor
      = (Material.new gltf3
          { plainMaterialJson with normal_texture := some normalRef1 }
        ).emissive_factor ∧
    (∀ nj v₁ v₂,
      (Material.new gltf3
          { plainMaterialJson with normal_texture := some normalRef1 }
        ).json.normal_texture = some nj →
      (Material.new gltf3
          { plainMaterialJson with normal_texture := some normalRef1 }
        ).normal_texture = some (some v₁) →
      (Material.new gltf3
          { plainMaterialJson with normal_texture := some normalRef1 }
        ).normal_texture = some (some v₂) →
      v₁.texture = v₂.texture ∧
      (Material.new gltf3
          { plainMaterialJson with normal_texture := some normalRef1 }
        ).gltf.textures_nth nj.index.value = some v₁.texture) :=
  C8_accessors_deterministic_and_stable
    (Material.new gltf3
      { plainMaterialJson with normal_texture := some normalRef1 })
    (Material.new gltf3
      { plainMaterialJson with normal_texture := some normalRef1 })
    rfl rfl

/-- C9: no accessor call mutates anything: embedding each &self method call
as result-plus-receiver (the source has no interior mutability), the
receiver — and through it the underlying record and document — is unchanged
after every accessor of Material, PbrMetallicRoughness, NormalTexture and
OcclusionTexture. -/
theorem C9_accessors_leave_state_unchanged (m : Material)
    (p : PbrMetallicRoughness) (n : NormalTexture) (o : OcclusionTexture) :
    (callOn m Material.alpha_cutoff).2 = m ∧
    (callOn m Material.alpha_mode).2 = m ∧
    (callOn m Material.double_sided).2 = m ∧
    (callOn m Material.name).2 = m ∧
    (callOn m Material.pbr_metallic_roughness).2 = m ∧
    (callOn m Material.normal_texture).2 = m ∧
    (callOn m Material.occlusion_texture).2 = m ∧
    (callOn m Material.emissive_texture).2 = m ∧
    (callOn m Material.emissive_factor).2 = m ∧
    (callOn m Material.extensions).2 = m ∧
    (callOn m Material.extras).2 = m ∧
    (callOn m Material.as_json).2 = m ∧
    (callOn p PbrMetallicRoughness.base_color_factor).2 = p ∧
    (callOn p PbrMetallicRoughness.base_color_texture).2 = p ∧
    (callOn p PbrMetallicRoughness.metallic_factor).2 = p ∧
    (callOn p PbrMetallicRoughness.roughness_factor).2 = p ∧
    (callOn p PbrMetallicRoughness.metallic_roughness_texture).2 = p ∧
    (callOn p PbrMetallicRoughness.extensions).2 = p ∧
    (callOn p PbrMetallicRoughness.extras).2 = p ∧
    (callOn p PbrMetallicRoughness.as_json).2 = p ∧
    (callOn n NormalTexture.scale).2 = n ∧
    (callOn n NormalTexture.tex_coord).2 = n ∧
    (callOn n NormalTexture.extensions).2 = n ∧
    (callOn n NormalTexture.extras).2 = n ∧
    (callOn n NormalTexture.deref).2 = n ∧
    (callOn n NormalTexture.as_json).2 = n ∧
    (callOn o OcclusionTexture.strength).2 = o ∧
    (callOn o OcclusionTexture.tex_coord).2 = o ∧
    (callOn o OcclusionTexture.extensions).2 = o ∧
    (callOn o OcclusionTexture.extras).2 = o ∧
    (callOn o OcclusionTexture.deref).2 = o ∧
    (callOn o OcclusionTexture.as_json).2 = o ∧
    (callOn m Material.normal_texture).2.gltf = m.gltf ∧
    (callOn m Material.normal_texture).2.json = m.json ∧
    (callOn m Material.normal_texture).2.gltf.textures_json
      = m.gltf.textures_json := by
  simp [callOn]

/-- C9 (witness): the frame property at a concrete material view and nested
views, discharging the theorem's binders at closed inputs. -/
theorem C9_accessors_leave_state_unchanged_witness :
    (callOn (Material.new gltf3 plainMaterialJson) Material.alpha_cutoff).2
      = Material.new gltf3 plainMaterialJson ∧
    (callOn (PbrMetallicRoughness.new gltf3 pbrJson1)
        PbrMetallicRoughness.metallic_factor).2
      = PbrMetallicRoughness.new gltf3 pbrJson1 ∧
    (callOn (NormalTexture.new texHandle0 normalRef1)
        NormalTexture.scale).2
      = NormalTexture.new texHandle0 normalRef1 ∧
    (callOn (OcclusionTexture.new texHandle0 occlusionRef2)
        OcclusionTexture.strength).2
      = OcclusionTexture.new texHandle0 occlusionRef2 :=
  ⟨(C9_accessors_leave_state_unchanged (Material.new gltf3 plainMaterialJson)
      (PbrMetallicRoughness.new gltf3 pbrJson1)
      (NormalTexture.new texHandle0 normalRef1)
      (OcclusionTexture.new texHandle0 occlusionRef2)).1
  , (C9_accessors_leave_state_unchanged (Material.new gltf3 plainMaterialJson)
      (PbrMetallicRoughness.new gltf3 pbrJson1)
      (NormalTexture.new texHandle0 normalRef1)
      (OcclusionTexture.new texHandle0 occlusionRef2)
      ).2.2.2.2.2.2.2.2.2.2.2.2.2.2.1
  , (C9_accessors_leave_state_unchanged (Material.new gltf3 plainMaterialJson)
      (PbrMetallicRoughness.new gltf3 pbrJson1)
      (NormalTexture.new texHandle0 normalRef1)
      (OcclusionTexture.new texHandle0 occlusionRef2)
      ).2.2.2.2.2.2.2.2.2.2.2.2.2.2.2.2.2.2.2.2.1
  , (C9_accessors_leave_state_unchanged (Material.new gltf3 plainMaterialJson)
      (PbrMetallicRoughness.new gltf3 pbrJson1)
      (NormalTexture.new texHandle0 normalRef1)
      (OcclusionTexture.new texHandle0 occlusionRef2)
      ).2.2.2.2.2.2.2.2.2.2.2.2.2.2.2.2.2.2.2.2.2.2.2.2.2.2.1⟩

/-- A fixture occlusion-map reference with out-of-range index 9. -/
def occlusionRef9 : json.material.OcclusionTexture :=
  { index := { value := 9 }
  , strength := { val := 3/4 }
  , tex_coord := 2
  , extensions := emptyPayload
  , extras := emptyPayload }

/-- C10: resolution is eager: when the normal- or occlusion-texture record
is present with an out-of-range index, the accessor panics and no view is
produced at all — even though the record's scalar fields do not need the
texture collection: the view scalar accessors are independent of whichever
texture handle the view would have carried. -/
theorem C10_resolution_is_eager (g : Gltf) (mj : json.material.Material) :
    (∀ nj, mj.normal_texture = some nj →
      g.textures_json.length ≤ nj.index.value →
      (Material.new g mj).normal_texture = none ∧
      (∀ v : NormalTexture,
        (Material.new g mj).normal_texture ≠ some (some v)) ∧
      (∀ t₁ t₂ : texture.Texture,
        (NormalTexture.new t₁ nj).scale = (NormalTexture.new t₂ nj).scale ∧
        (NormalTexture.new t₁ nj).scale = nj.scale ∧
        (NormalTexture.new t₁ nj).tex_coord = nj.tex_coord)) ∧
    (∀ oj, mj.occlusion_texture = some oj →
      g.textures_json.length ≤ oj.index.value →
      (Material.new g mj).occlusion_texture = none ∧
      (∀ v : OcclusionTexture,
        (Material.new g mj).occlusion_texture ≠ some (some v)) ∧
      (∀ t₁ t₂ : texture.Texture,
        (OcclusionTexture.new t₁ oj).strength
          = (OcclusionTexture.new t₂ oj).strength ∧
        (OcclusionTexture.new t₁ oj).strength = oj.strength.val ∧
        (OcclusionTexture.new t₁ oj).tex_coord = oj.tex_coord)) := by
  refine ⟨fun nj hnj hlen => ?_, fun oj hoj hlen => ?_⟩
  · have hres : (Material.new g mj).normal_texture = none := by
      simp [Material.normal_texture, Material.new, Gltf.textures_nth, hnj,
        List.getElem?_eq_none hlen]
    exact ⟨hres
      , fun v h => Option.noConfusion (hres ▸ h)
      , fun t₁ t₂ => ⟨rfl, rfl, rfl⟩⟩
  · have hres : (Material.new g mj).occlusion_texture = none := by
      simp [Material.occlusion_texture, Material.new, Gltf.textures_nth, hoj,
        List.getElem?_eq_none hlen]
    exact ⟨hres
      , fun v h => Option.noConfusion (hres ▸ h)
      , fun t₁ t₂ => ⟨rfl, rfl, rfl⟩⟩

/-- C10 (witness): eager resolution at a concrete document with three
textures, a normal-texture record with index 7 and an occlusion-texture
record with index 9. -/
theorem C10_resolution_is_eager_witness :
    ((Material.new gltf3
        { plainMaterialJson with
            normal_texture := some normalRef7
          , occlusion_texture := some occlusionRef9 }).normal_texture = none ∧
      (∀ v : NormalTexture,
        (Material.new gltf3
            { plainMaterialJson with
                normal_texture := some normalRef7
              , occlusion_texture := some occlusionRef9 }).normal_texture
          ≠ some (some v)) ∧
      (∀ t₁ t₂ : texture.Texture,
        (NormalTexture.new t₁ normalRef7).scale
          = (NormalTexture.new t₂ normalRef7).scale ∧
        (NormalTexture.new t₁ normalRef7).scale = normalRef7.scale ∧
        (NormalTexture.new t₁ normalRef7).tex_coord
          = normalRef7.tex_coord)) ∧
    ((Material.new gltf3
        { plainMaterialJson with
            normal_texture := some normalRef7
          , occlusion_texture := some occlusionRef9 }).occlusion_texture
        = none ∧
      (∀ v : OcclusionTexture,
        (Material.new gltf3
            { plainMaterialJson with
                normal_texture := some normalRef7
              , occlusion_texture := some occlusionRef9 }).occlusion_texture
          ≠ some (some v)) ∧
      (∀ t₁ t₂ : texture.Texture,
        (OcclusionTexture.new t₁ occlusionRef9).strength
          = (OcclusionTexture.new t₂ occlusionRef9).strength ∧
        (OcclusionTexture.new t₁ occlusionRef9).strength
          = occlusionRef9.strength.val ∧
        (OcclusionTexture.new t₁ occlusionRef9).tex_coord
          = occlusionRef9.tex_coord)) :=
  ⟨(C10_resolution_is_eager gltf3
      { plainMaterialJson with
          normal_texture := some normalRef7
        , occlusion_texture := some occlusionRef9 }).1 normalRef7 rfl
      (by decide)
  , (C10_resolution_is_eager gltf3
      { plainMaterialJson with
          normal_texture := some normalRef7
        , occlusion_texture := some occlusionRef9 }).2 occlusionRef9 rfl
      (by decide)⟩
